import Mathlib

/-!
Verification of the bullshido-api video job lifecycle
(`services/videos_service.py`) against its natural-language specification.

The services are embedded shallowly: the SQL store (tables `videos` and
`users`) becomes a `Store` structure holding lists of rows; a session
query `select(...).where(col(Video.id) == n)` followed by `.first()`
becomes `List.find?`; mutating the ORM object returned by `.first()` and
committing becomes replacing the first matching row; `HTTPException`s
become an error result threaded with the (unchanged) store.
Strings are modelled over decimal digits (`Char.isDigit` for Python's
`str.isdigit`, which is what the services' ids use).
-/

namespace Bullshido

/-- `schemas.VideoStatus` -/
inductive VideoStatus where
  | queued
  | processing
  | completed
  | failed
deriving DecidableEq, Repr

/-- `schemas.VoicePreset` -/
inductive VoicePreset where
  | af_heart
  | af_bella
  | af_nicole
deriving DecidableEq, Repr

/-- The `.value` string of a `VoicePreset` member. -/
def VoicePreset.value : VoicePreset → String
  | .af_heart => "af_heart"
  | .af_bella => "af_bella"
  | .af_nicole => "af_nicole"

/-- `schemas.SubtitlePosition` -/
inductive SubtitlePosition where
  | top
  | center
  | bottom
deriving DecidableEq, Repr

/-- The `.value` string of a `SubtitlePosition` member. -/
def SubtitlePosition.value : SubtitlePosition → String
  | .top => "top"
  | .center => "center"
  | .bottom => "bottom"

/-- Row of the `videos` table (`models.Video`).  `created_at` is modelled
as a `Nat` timestamp (only ordering matters to the services). -/
structure Video where
  id : Nat
  user_id : Nat
  text : String
  voice : VoicePreset
  subtitle_style_id : Nat
  subtitle_position : SubtitlePosition
  status : VideoStatus
  video_url : Option String
  thumbnail_url : Option String
  created_at : Nat
deriving DecidableEq, Repr

/-- Row of the `users` table (`models.User`), the fields the video
services read. -/
structure User where
  id : Nat
  username : String
  email : String
  hashed_password : String
deriving DecidableEq, Repr

/-- The persistent state the video services touch: the two tables, plus
the primary-key counter the store uses to assign `Video.id` on insert. -/
structure Store where
  videos : List Video
  users : List User
  nextId : Nat
deriving DecidableEq, Repr

/-- `schemas.VideoCreateRequest` (validation of `text` length and
`subtitle_style_id` range is done by the API layer, before the service). -/
structure VideoCreateRequest where
  text : String
  voice : VoicePreset
  subtitle_style_id : Nat
  subtitle_position : SubtitlePosition
deriving DecidableEq, Repr

/-- `schemas.VideoUpdateStatus`: the worker callback body.  The optional
url fields default to `None` in the source. -/
structure VideoUpdateStatus where
  status : VideoStatus
  video_url : Option String := none
  thumbnail_url : Option String := none
deriving DecidableEq, Repr

/-- `schemas.VideoResponse` -/
structure VideoResponse where
  id : String
  author_username : String
  text : String
  status : VideoStatus
  video_url : Option String
  thumbnail_url : Option String
  created_at : Nat
deriving DecidableEq, Repr

/-- The `HTTPException`s the video services raise: 403 `"Not authorized
worker"` (the spec's `Unauthorized`) and 404 `"Video not found"` (the
spec's `NotFound`). -/
inductive HTTPError where
  | notAuthorizedWorker
  | notFound
deriving DecidableEq, Repr

/-- Failure of `redis.enqueue_job` (the spec's `QueueUnavailable`). -/
inductive QueueError where
  | queueUnavailable
deriving DecidableEq, Repr

/-- The keyword arguments of one `redis.enqueue_job("generate_video", ...)`
call. -/
structure WorkItem where
  jobName : String
  video_id : Nat
  text : String
  voice : String
  subtitle_style_id : Nat
  subtitle_position : String
deriving DecidableEq, Repr

/-- Python truthiness of an `Optional[str]`: `None` and `""` are falsy. -/
def pyTruthy : Option String → Bool
  | none => false
  | some s => !s.data.isEmpty

/-- The decimal restriction of Python `str.isdigit()`: nonempty and all
characters ASCII `0`-`9` (`""`, `"-1"`, `"abc"` are all `false`).  On such
strings CPython's `isdigit` and `int` agree with this model exactly — the
regime every service theorem below instantiates or hypothesises.  CPython's
`isdigit` itself is Unicode-aware; `pyStrIsDigit` below models that full
guard, and `parse_video_id` the resulting guard-region behaviour. -/
def pyIsDigit (s : String) : Bool :=
  !s.data.isEmpty && s.data.all Char.isDigit

/-- Python `int(s)` on a decimal-digit string: left-to-right accumulation. -/
def pyInt (s : String) : Nat :=
  s.data.foldl (fun n c => n * 10 + (c.toNat - '0'.toNat)) 0

/-- Character class of CPython's Unicode-aware `str.isdigit()`
(Unicode `Numeric_Type` Digit or Decimal), over-approximated: among ASCII
characters exactly the digits `0`-`9`, and every non-ASCII character —
every Unicode digit outside ASCII is non-ASCII, so the approximation errs
only by admitting some non-digits.  Theorems use it negatively (a string it
rejects is certainly rejected by CPython's `isdigit`) or at characters such
as `'٢'` and `'²'` that genuinely are Python digits. -/
def pyDigitChar (c : Char) : Bool :=
  c.isDigit || decide (0x80 ≤ c.toNat)

/-- CPython's `str.isdigit()` at string level: nonempty and every character
in the `isdigit` class (per `pyDigitChar`). -/
def pyStrIsDigit (s : String) : Bool :=
  !s.data.isEmpty && s.data.all pyDigitChar

/-- The decimal value `int()` assigns to one character (Unicode
`Numeric_Type=Decimal`), modelled for the digit blocks exercised here:
ASCII `0`-`9` and Arabic-Indic `٠`-`٩`; `none` for every other character —
in particular for `'²'`, which `isdigit` accepts but `int()` rejects
(`Numeric_Type=Digit`, not `Decimal`). -/
def pyDigitValue (c : Char) : Option Nat :=
  if c.isDigit then some (c.toNat - '0'.toNat)
  else if 0x660 ≤ c.toNat ∧ c.toNat ≤ 0x669 then some (c.toNat - 0x660)
  else none

/-- CPython `int(s)` after an `isdigit` guard: succeeds iff every character
is a decimal digit; `none` models the raised `ValueError`. -/
def pyIntChecked (s : String) : Option Nat :=
  if s.data.isEmpty then none
  else if s.data.all (fun c => (pyDigitValue c).isSome) then
    some (s.data.foldl (fun n c => n * 10 + (pyDigitValue c).getD 0) 0)
  else none

/-- Outcome of the services' id-parsing prefix: the 404, an unhandled
`ValueError` from `int()`, or the parsed job id. -/
inductive IdParse where
  | notFound
  | valueError
  | parsed (n : Nat)
deriving DecidableEq, Repr

/-- The id-parsing prefix shared by `get_video_status_service` (lines
121-126) and `update_video_status_service` (lines 163-166), with the guard
modelled by CPython's Unicode-aware `isdigit`: strings it rejects get the
404, strings it accepts reach `int(video_id)`, which yields the job id when
all characters are decimal digits and raises an unhandled `ValueError`
otherwise. -/
def parse_video_id (video_id : String) : IdParse :=
  if ¬ pyStrIsDigit video_id then .notFound
  else
    match pyIntChecked video_id with
    | none => .valueError
    | some n => .parsed n

/-- Replace the first element satisfying `p` by `a` — the effect of
mutating the single ORM row returned by `.first()` and committing. -/
def replaceFirst (p : α → Bool) (a : α) : List α → List α
  | [] => []
  | x :: xs => if p x then a :: xs else x :: replaceFirst p a xs

/-- Build the `VideoResponse` the services return (`id=str(video.id)`,
remaining fields copied from the row). -/
def videoToResponse (v : Video) (author : String) : VideoResponse :=
  { id := toString v.id
    author_username := author
    text := v.text
    status := v.status
    video_url := v.video_url
    thumbnail_url := v.thumbnail_url
    created_at := v.created_at }

/-- The body of the worker update applied to the found row:
`video_obj.status = update_data.status`, then each url field is
overwritten only when the provided value is truthy. -/
def applyUpdate (v : Video) (u : VideoUpdateStatus) : Video :=
  let v1 := { v with status := u.status }
  let v2 := if pyTruthy u.video_url then { v1 with video_url := u.video_url } else v1
  if pyTruthy u.thumbnail_url then { v2 with thumbnail_url := u.thumbnail_url } else v2

/-- The author-name lookup at the end of `update_video_status_service`:
`"unknown"` unless `video_obj.user_id` is truthy and a matching user row
exists. -/
def authorName (users : List User) (uid : Nat) : String :=
  if uid ≠ 0 then
    match users.find? (fun usr => usr.id == uid) with
    | some usr => usr.username
    | none => "unknown"
  else "unknown"

/-- `services/videos_service.py::update_video_status_service`.
Checks the worker token, then `video_id.isdigit()`, then fetches the
first row with `Video.id == int(video_id)`, applies the update and
commits.  Errors leave the store untouched (the exception is raised
before any commit). -/
def update_video_status_service (store : Store) (video_id : String)
    (update_data : VideoUpdateStatus) (x_worker_token : String)
    (workerSecretToken : String) :
    Except HTTPError VideoResponse × Store :=
  if x_worker_token ≠ workerSecretToken then
    (.error .notAuthorizedWorker, store)
  else if ¬ pyIsDigit video_id then
    (.error .notFound, store)
  else
    match store.videos.find? (fun w => w.id == pyInt video_id) with
    | none => (.error .notFound, store)
    | some video_obj =>
      let video_obj' := applyUpdate video_obj update_data
      let store' := { store with
        videos := replaceFirst (fun w => w.id == pyInt video_id) video_obj' store.videos }
      let author_username := authorName store'.users video_obj'.user_id
      (.ok (videoToResponse video_obj' author_username), store')

/-- `services/videos_service.py::get_video_status_service`.
Checks `video_id.isdigit()`, then fetches the first row of
`select(Video, User).join(User).where(Video.id == int(video_id))`.
Note the `current_user` argument is accepted but never consulted. -/
def get_video_status_service (store : Store) (video_id : String)
    (current_user : User) : Except HTTPError VideoResponse :=
  if ¬ pyIsDigit video_id then
    .error .notFound
  else
    match store.videos.find? (fun w => w.id == pyInt video_id) with
    | none => .error .notFound
    | some video_obj =>
      match store.users.find? (fun usr => usr.id == video_obj.user_id) with
      | none => .error .notFound
      | some user_obj => .ok (videoToResponse video_obj user_obj.username)

/-- `services/videos_service.py::create_video_generation_task_service`.
Inserts the new row with `status=queued` and commits, then awaits
`redis.enqueue_job("generate_video", ...)`.  `enqueueOk` models whether
that await succeeds; on failure the exception propagates AFTER the
commit, so the store keeps the new row either way.  The third component
is the list of enqueue calls issued. -/
def create_video_generation_task_service (store : Store)
    (video_request : VideoCreateRequest) (current_user : User) (now : Nat)
    (enqueueOk : Bool) :
    Except QueueError VideoResponse × Store × List WorkItem :=
  let new_video : Video :=
    { id := store.nextId
      user_id := current_user.id
      text := video_request.text
      voice := video_request.voice
      subtitle_style_id := video_request.subtitle_style_id
      subtitle_position := video_request.subtitle_position
      status := .queued
      video_url := none
      thumbnail_url := none
      created_at := now }
  let store' := { store with
    videos := store.videos ++ [new_video]
    nextId := store.nextId + 1 }
  if enqueueOk then
    (.ok (videoToResponse new_video current_user.username), store',
     [{ jobName := "generate_video"
        video_id := new_video.id
        text := new_video.text
        voice := new_video.voice.value
        subtitle_style_id := new_video.subtitle_style_id
        subtitle_position := new_video.subtitle_position.value }])
  else
    (.error .queueUnavailable, store', [])

/-- Stable insertion (descending by `created_at`) used to model
`order_by(desc(col(Video.created_at)))`. -/
def insertByCreatedDesc (v : Video) : List Video → List Video
  | [] => [v]
  | x :: xs =>
    if v.created_at > x.created_at then v :: x :: xs
    else x :: insertByCreatedDesc v xs

/-- Sort rows descending by `created_at`. -/
def sortByCreatedDesc : List Video → List Video
  | [] => []
  | x :: xs => insertByCreatedDesc x (sortByCreatedDesc xs)

/-- Inner join `select(Video, User).join(User)`: pair each video row with
its owner row, dropping rows whose owner is missing. -/
def joinUsers (users : List User) (vs : List Video) : List (Video × User) :=
  vs.filterMap (fun v => (users.find? (fun u => u.id == v.user_id)).map (fun u => (v, u)))

/-- `services/videos_service.py::get_video_gallery_service`:
all rows with `status == completed` joined to their authors, newest
first, then `offset(skip).limit(limit)`.  No requester argument exists. -/
def get_video_gallery_service (store : Store) (skip limit : Nat) :
    List VideoResponse :=
  let rows :=
    joinUsers store.users
      (sortByCreatedDesc (store.videos.filter (fun v => v.status == .completed)))
  (((rows.drop skip).take limit).map (fun p => videoToResponse p.1 p.2.username))

/-- Whether a service call produced a response rather than raising. -/
def responseOk : Except HTTPError VideoResponse → Bool
  | .ok _ => true
  | .error _ => false

/-- Fixture: owner of the sample job. -/
def exUser1 : User := ⟨1, "alice", "alice@example.com", "pw1"⟩

/-- Fixture: a different authenticated user (not the owner). -/
def exUser2 : User := ⟨2, "bob", "bob@example.com", "pw2"⟩

/-- Fixture: a job of `exUser1` already in the `completed` state. -/
def exVideoCompleted : Video :=
  ⟨1, 1, "some text", .af_heart, 1, .top, .completed, some "http://x/v.mp4", none, 0⟩

/-- Fixture: store holding `exVideoCompleted` and both users. -/
def exStoreCompleted : Store := ⟨[exVideoCompleted], [exUser1, exUser2], 2⟩

/-- Fixture: a freshly queued job of `exUser1`. -/
def exVideoQueued : Video :=
  ⟨1, 1, "some text", .af_heart, 1, .top, .queued, none, none, 0⟩

/-- Fixture: store holding `exVideoQueued` and both users. -/
def exStoreQueued : Store := ⟨[exVideoQueued], [exUser1, exUser2], 2⟩

/-- Fixture: a creation request. -/
def exReq : VideoCreateRequest := ⟨"a test request", .af_bella, 2, .bottom⟩

/-- Fixture: `exVideoCompleted` after an authorized `failed` update that
carries no urls. -/
def exVideoFailed : Video :=
  ⟨1, 1, "some text", .af_heart, 1, .top, .failed, some "http://x/v.mp4", none, 0⟩

/-- Fixture: `exStoreCompleted` after that `failed` update. -/
def exStoreFailed : Store := ⟨[exVideoFailed], [exUser1, exUser2], 2⟩

end Bullshido

namespace Bullshido

/-- C4: with a wrong worker credential the update service fails with the
403 worker-authorization error (the spec's `Unauthorized`) and returns
the store untouched, uniformly in the store — hence identically whether
or not any job with that id exists. -/
theorem update_unauthorized_uniform (store : Store) (video_id : String)
    (update_data : VideoUpdateStatus) (tok secret : String)
    (h : tok ≠ secret) :
    update_video_status_service store video_id update_data tok secret =
      (.error .notAuthorizedWorker, store) := by
  simp [update_video_status_service, h]

/-- C4 witness: concrete wrong token, on a store with no job `"7"` and on
a store holding job `"7"`, both produce exactly the same rejection. -/
theorem update_unauthorized_uniform_witness :
    ("bad" ≠ "secret") ∧
    update_video_status_service ⟨[], [], 1⟩ "7" ⟨.failed, none, none⟩ "bad" "secret" =
      (.error .notAuthorizedWorker, ⟨[], [], 1⟩) ∧
    update_video_status_service
        ⟨[⟨7, 1, "t", .af_heart, 1, .top, .queued, none, none, 0⟩], [], 8⟩
        "7" ⟨.failed, none, none⟩ "bad" "secret" =
      (.error .notAuthorizedWorker,
        ⟨[⟨7, 1, "t", .af_heart, 1, .top, .queued, none, none, 0⟩], [], 8⟩) :=
  ⟨by decide,
   update_unauthorized_uniform ⟨[], [], 1⟩ "7" ⟨.failed, none, none⟩ "bad" "secret" (by decide),
   update_unauthorized_uniform
     ⟨[⟨7, 1, "t", .af_heart, 1, .top, .queued, none, none, 0⟩], [], 8⟩
     "7" ⟨.failed, none, none⟩ "bad" "secret" (by decide)⟩

lemma applyUpdate_def (v : Video) (u : VideoUpdateStatus) : applyUpdate v u =
    { v with
      status := u.status
      video_url := if pyTruthy u.video_url then u.video_url else v.video_url
      thumbnail_url := if pyTruthy u.thumbnail_url then u.thumbnail_url else v.thumbnail_url } := by
  simp only [applyUpdate]
  by_cases h1 : pyTruthy u.video_url <;> by_cases h2 : pyTruthy u.thumbnail_url <;>
    simp [h1, h2]

lemma applyUpdate_idf (v : Video) (u : VideoUpdateStatus) :
    (applyUpdate v u).id = v.id := by
  simp [applyUpdate_def]

lemma applyUpdate_user_id (v : Video) (u : VideoUpdateStatus) :
    (applyUpdate v u).user_id = v.user_id := by
  simp [applyUpdate_def]

lemma applyUpdate_status (v : Video) (u : VideoUpdateStatus) :
    (applyUpdate v u).status = u.status := by
  simp [applyUpdate_def]

lemma applyUpdate_video_url_of_not_truthy (v : Video) (u : VideoUpdateStatus)
    (h : pyTruthy u.video_url = false) :
    (applyUpdate v u).video_url = v.video_url := by
  simp [applyUpdate_def, h]

lemma applyUpdate_thumbnail_of_not_truthy (v : Video) (u : VideoUpdateStatus)
    (h : pyTruthy u.thumbnail_url = false) :
    (applyUpdate v u).thumbnail_url = v.thumbnail_url := by
  simp [applyUpdate_def, h]

lemma applyUpdate_video_url_of_truthy (v : Video) (u : VideoUpdateStatus)
    (h : pyTruthy u.video_url = true) :
    (applyUpdate v u).video_url = u.video_url := by
  simp [applyUpdate_def, h]

lemma applyUpdate_thumbnail_of_truthy (v : Video) (u : VideoUpdateStatus)
    (h : pyTruthy u.thumbnail_url = true) :
    (applyUpdate v u).thumbnail_url = u.thumbnail_url := by
  simp [applyUpdate_def, h]

lemma pyTruthy_ne_none {o : Option String} (h : pyTruthy o = true) : o ≠ none := by
  cases o <;> simp [pyTruthy] at h ⊢

lemma pyTruthy_none : pyTruthy none = false := rfl

lemma pyTruthy_some_empty : pyTruthy (some "") = false := by decide

lemma applyUpdate_idem (v : Video) (u : VideoUpdateStatus) :
    applyUpdate (applyUpdate v u) u = applyUpdate v u := by
  simp only [applyUpdate_def]
  by_cases h1 : pyTruthy u.video_url <;> by_cases h2 : pyTruthy u.thumbnail_url <;>
    simp [h1, h2]

lemma find?_replaceFirst {α : Type} (p : α → Bool) (a : α) (l : List α) (v : α)
    (hf : l.find? p = some v) (ha : p a = true) :
    (replaceFirst p a l).find? p = some a := by
  induction l with
  | nil => simp at hf
  | cons x xs ih =>
    by_cases hx : p x
    · simp [replaceFirst, hx, List.find?_cons_of_pos, ha]
    · rw [List.find?_cons_of_neg _ hx] at hf
      simp only [replaceFirst, hx, if_false, Bool.false_eq_true]
      rw [List.find?_cons_of_neg _ hx]
      exact ih hf

lemma replaceFirst_idem {α : Type} (p : α → Bool) (a : α) (l : List α)
    (ha : p a = true) :
    replaceFirst p a (replaceFirst p a l) = replaceFirst p a l := by
  induction l with
  | nil => rfl
  | cons x xs ih =>
    by_cases hx : p x
    · simp [replaceFirst, hx, ha]
    · simp [replaceFirst, hx, ih]

lemma forall2_replaceFirst {α : Type} (p : α → Bool) (a : α) (rel : α → α → Prop)
    (hrefl : ∀ x, rel x x) (l : List α) (v : α)
    (hf : l.find? p = some v) (hva : rel v a) :
    List.Forall₂ rel l (replaceFirst p a l) := by
  induction l with
  | nil => simp at hf
  | cons x xs ih =>
    by_cases hx : p x
    · rw [List.find?_cons_of_pos _ hx] at hf
      injection hf with hf
      subst hf
      simp only [replaceFirst, hx, if_true]
      exact List.Forall₂.cons hva (List.forall₂_same.mpr (fun y _ => hrefl y))
    · rw [List.find?_cons_of_neg _ hx] at hf
      simp only [replaceFirst, hx, if_false, Bool.false_eq_true]
      exact List.Forall₂.cons (hrefl x) (ih hf)

lemma update_ok_inv (store : Store) (video_id : String) (u : VideoUpdateStatus)
    (tok secret : String) (r : VideoResponse) (s' : Store)
    (h : update_video_status_service store video_id u tok secret = (.ok r, s')) :
    tok = secret ∧ pyIsDigit video_id = true ∧
    ∃ v, store.videos.find? (fun w => w.id == pyInt video_id) = some v ∧
      s' = { store with
        videos := replaceFirst (fun w => w.id == pyInt video_id) (applyUpdate v u)
          store.videos } ∧
      r = videoToResponse (applyUpdate v u)
            (authorName store.users (applyUpdate v u).user_id) := by
  by_cases h1 : tok ≠ secret
  · simp [update_video_status_service, h1] at h
  · push_neg at h1
    by_cases h2 : pyIsDigit video_id
    · cases hfind : store.videos.find? (fun w => w.id == pyInt video_id) with
      | none => simp [update_video_status_service, h1, h2, hfind] at h
      | some v =>
        simp only [update_video_status_service, h1, h2, hfind, ne_eq,
          not_true_eq_false, if_false, not_false_eq_true, if_true] at h
        refine ⟨h1, by simpa using h2, v, rfl, ?_, ?_⟩
        · exact (Prod.mk.injEq _ _ _ _ ▸ h).2.symm
        · have := (Prod.mk.injEq _ _ _ _ ▸ h).1
          exact (Except.ok.injEq _ _ ▸ this).symm
    · simp [update_video_status_service, h1, h2] at h

lemma pyStrIsDigit_of_pyIsDigit {s : String} (h : pyIsDigit s = true) :
    pyStrIsDigit s = true := by
  simp only [pyIsDigit, Bool.and_eq_true, Bool.not_eq_true',
    List.all_eq_true] at h
  simp only [pyStrIsDigit, Bool.and_eq_true, Bool.not_eq_true',
    List.all_eq_true]
  exact ⟨h.1, fun c hc => by simp [pyDigitChar, h.2 c hc]⟩

/-- C9 counterexample: `"²"` is not composed of decimal digits (`int()`
assigns its character no value), yet CPython's `isdigit` accepts it, so the
guard of both services passes and `int("²")` IS reached — and raises an
unhandled `ValueError` instead of the claimed `NotFound`.  The Unicode
decimal `"٢"` likewise passes the guard and parses as job id 2. -/
theorem unicode_digit_guard_cex :
    pyDigitValue '²' = none ∧
    pyStrIsDigit "²" = true ∧
    parse_video_id "²" = IdParse.valueError ∧
    parse_video_id "٢" = IdParse.parsed 2 := by
  decide

/-- C9 (amended): for every `video_id` that CPython's Unicode-aware
`str.isdigit()` rejects — the empty string and all ASCII negative or
non-numeric forms included — the guard region yields the 404 before
`int()`, and both services report `NotFound` with the store untouched, for
every store alike.  (Strings `isdigit` accepts do reach `int(video_id)`,
which raises on non-decimal digits such as `"²"` — see the
counterexample.) -/
theorem nondigit_id_rejected_before_int (store : Store) (video_id : String)
    (cu : User) (u : VideoUpdateStatus) (tok secret : String)
    (hnd : pyStrIsDigit video_id = false) (ht : tok = secret) :
    parse_video_id video_id = .notFound ∧
    get_video_status_service store video_id cu = .error .notFound ∧
    update_video_status_service store video_id u tok secret =
      (.error .notFound, store) := by
  subst ht
  have hd : pyIsDigit video_id = false := by
    cases hx : pyIsDigit video_id with
    | false => rfl
    | true =>
      rw [pyStrIsDigit_of_pyIsDigit hx] at hnd
      exact absurd hnd (by simp)
  exact ⟨by simp [parse_video_id, hnd],
    by simp [get_video_status_service, hd],
    by simp [update_video_status_service, hd]⟩

/-- C9 (amended) witness: the non-numeric id `"abc"` is rejected with 404
before `int()` by the guard and by both services, on a store holding a
job. -/
theorem nondigit_id_rejected_before_int_witness :
    parse_video_id "abc" = .notFound ∧
    get_video_status_service exStoreCompleted "abc" exUser1 = .error .notFound ∧
    update_video_status_service exStoreCompleted "abc" ⟨.completed, none, none⟩
      "s" "s" = (.error .notFound, exStoreCompleted) :=
  nondigit_id_rejected_before_int exStoreCompleted "abc" exUser1
    ⟨.completed, none, none⟩ "s" "s" (by decide) rfl

/-- C2 counterexample: the job `"1"` of `exUser1` is returned (no `NotFound`)
to the distinct requester `exUser2` — `get_video_status_service` performs no
ownership check at all. -/
theorem get_video_owner_mismatch_cex :
    exUser2.id ≠ exVideoCompleted.user_id ∧
    responseOk (get_video_status_service exStoreCompleted "1" exUser2) = true := by
  decide

/-- C2 (amended): `get_video_status_service` ignores its `current_user`
argument entirely: whenever the id is a digit string and the job row (joined
with its author row) exists, the full job is returned to EVERY requester,
owner or not; `NotFound` arises only from a non-digit id or a missing row. -/
theorem get_video_ignores_requester (store : Store) (video_id : String)
    (requester : User) (v : Video) (usr : User)
    (hd : pyIsDigit video_id = true)
    (hv : store.videos.find? (fun w => w.id == pyInt video_id) = some v)
    (hu : store.users.find? (fun w => w.id == v.user_id) = some usr) :
    get_video_status_service store video_id requester =
      .ok (videoToResponse v usr.username) := by
  simp [get_video_status_service, hd, hv, hu]

/-- C2 (amended) witness: `exUser2`, who does not own job `"1"`, receives it. -/
theorem get_video_ignores_requester_witness :
    get_video_status_service exStoreCompleted "1" exUser2 =
      .ok (videoToResponse exVideoCompleted exUser1.username) :=
  get_video_ignores_requester exStoreCompleted "1" exUser2 exVideoCompleted exUser1
    (by decide) (by decide) (by decide)

/-- C1 counterexample: job `"1"` sits in the terminal `completed` state; the
worker update requesting `completed -> queued` (absent from the §4.3 table)
nevertheless succeeds and the stored status revisits `queued` — no
`InvalidTransition` error exists anywhere in the service. -/
theorem update_terminal_to_queued_cex :
    exStoreCompleted.videos.map Video.status = [VideoStatus.completed] ∧
    responseOk (update_video_status_service exStoreCompleted "1"
      ⟨.queued, none, none⟩ "s" "s").1 = true ∧
    ((update_video_status_service exStoreCompleted "1"
      ⟨.queued, none, none⟩ "s" "s").2.videos.map Video.status) =
      [VideoStatus.queued] := by
  decide

/-- C1 (amended): `update_video_status_service` validates no transition at
all: with a valid worker token and a digit id naming an existing job, EVERY
requested `newStatus` — including moves out of terminal states and back to
`queued` — is applied unconditionally and the call succeeds. -/
theorem update_no_transition_validation (store : Store) (video_id : String)
    (u : VideoUpdateStatus) (tok : String) (v : Video)
    (hd : pyIsDigit video_id = true)
    (hf : store.videos.find? (fun w => w.id == pyInt video_id) = some v) :
    (update_video_status_service store video_id u tok tok).1 =
      .ok (videoToResponse (applyUpdate v u)
        (authorName store.users (applyUpdate v u).user_id)) ∧
    ((update_video_status_service store video_id u tok tok).2.videos.find?
      (fun w => w.id == pyInt video_id)) = some (applyUpdate v u) ∧
    (applyUpdate v u).status = u.status := by
  have hp : (fun w => w.id == pyInt video_id) (applyUpdate v u) = true := by
    have hv := List.find?_some hf
    simpa [applyUpdate_idf] using hv
  have hupd : update_video_status_service store video_id u tok tok =
      (.ok (videoToResponse (applyUpdate v u)
          (authorName store.users (applyUpdate v u).user_id)),
        { store with
          videos := replaceFirst (fun w => w.id == pyInt video_id) (applyUpdate v u)
            store.videos }) := by
    simp [update_video_status_service, hd, hf]
  refine ⟨by rw [hupd], ?_, applyUpdate_status v u⟩
  rw [hupd]
  exact find?_replaceFirst _ _ _ _ hf hp

/-- C1 (amended) witness: the completed job `"1"` is moved back to `queued`
by a single authorized worker update. -/
theorem update_no_transition_validation_witness :
    (update_video_status_service exStoreCompleted "1" ⟨.queued, none, none⟩
        "s" "s").1 =
      .ok (videoToResponse (applyUpdate exVideoCompleted ⟨.queued, none, none⟩)
        (authorName exStoreCompleted.users
          (applyUpdate exVideoCompleted ⟨.queued, none, none⟩).user_id)) ∧
    ((update_video_status_service exStoreCompleted "1" ⟨.queued, none, none⟩
        "s" "s").2.videos.find? (fun w => w.id == pyInt "1")) =
      some (applyUpdate exVideoCompleted ⟨.queued, none, none⟩) ∧
    (applyUpdate exVideoCompleted ⟨.queued, none, none⟩).status =
      VideoStatus.queued :=
  update_no_transition_validation exStoreCompleted "1" ⟨.queued, none, none⟩ "s"
    exVideoCompleted (by decide) (by decide)

/-- C5: a successful `create_video_generation_task_service` persists exactly
one new job, with `status=queued` and the payload copied verbatim from the
request, and issues exactly one enqueue call carrying the new job's id and
the payload fields (`text`, `voice`, `subtitle_style_id`,
`subtitle_position`) verbatim. -/
theorem create_persists_queued_and_enqueues_once (store : Store)
    (req : VideoCreateRequest) (cu : User) (now : Nat) :
    ∃ v : Video,
      (create_video_generation_task_service store req cu now true).2.1.videos =
        store.videos ++ [v] ∧
      v.status = .queued ∧
      v.id = store.nextId ∧
      v.user_id = cu.id ∧
      v.text = req.text ∧
      v.voice = req.voice ∧
      v.subtitle_style_id = req.subtitle_style_id ∧
      v.subtitle_position = req.subtitle_position ∧
      (create_video_generation_task_service store req cu now true).2.2 =
        [⟨"generate_video", v.id, req.text, req.voice.value,
          req.subtitle_style_id, req.subtitle_position.value⟩] ∧
      (create_video_generation_task_service store req cu now true).1 =
        .ok (videoToResponse v cu.username) ∧
      (videoToResponse v cu.username).status = .queued :=
  ⟨{ id := store.nextId
     user_id := cu.id
     text := req.text
     voice := req.voice
     subtitle_style_id := req.subtitle_style_id
     subtitle_position := req.subtitle_position
     status := .queued
     video_url := none
     thumbnail_url := none
     created_at := now },
   rfl, rfl, rfl, rfl, rfl, rfl, rfl, rfl, rfl, rfl, rfl⟩

/-- C3 counterexample: on a store with no jobs, a create whose enqueue step
fails raises `QueueUnavailable` yet leaves the store holding the freshly
committed `queued` job, with no work item enqueued — exactly the dangling
state the claim forbids. -/
theorem create_dangling_queued_cex :
    (create_video_generation_task_service ⟨[], [exUser1], 1⟩ exReq exUser1
      5 false).1 = .error .queueUnavailable ∧
    (create_video_generation_task_service ⟨[], [exUser1], 1⟩ exReq exUser1
      5 false).2.2 = [] ∧
    ((create_video_generation_task_service ⟨[], [exUser1], 1⟩ exReq exUser1
      5 false).2.1.videos.map Video.status) = [VideoStatus.queued] :=
  ⟨rfl, rfl, by decide⟩

/-- C3 (amended): the commit happens before the enqueue and there is no
rollback handler: when enqueue fails, `QueueUnavailable` propagates but the
new job stays persisted with `status=queued` (not `failed`) and no work item
enqueued — the store IS left holding a dangling queued job. -/
theorem create_enqueue_failure_leaves_dangling_queued (store : Store)
    (req : VideoCreateRequest) (cu : User) (now : Nat) :
    (create_video_generation_task_service store req cu now false).1 =
      .error .queueUnavailable ∧
    (create_video_generation_task_service store req cu now false).2.2 = [] ∧
    ∃ v : Video,
      (create_video_generation_task_service store req cu now false).2.1.videos =
        store.videos ++ [v] ∧
      v.status = .queued :=
  ⟨rfl, rfl,
   ⟨{ id := store.nextId
      user_id := cu.id
      text := req.text
      voice := req.voice
      subtitle_style_id := req.subtitle_style_id
      subtitle_position := req.subtitle_position
      status := .queued
      video_url := none
      thumbnail_url := none
      created_at := now },
    rfl, rfl⟩⟩

/-- C10: a worker update carrying `video_url` / `thumbnail_url` as the empty
string behaves exactly like one omitting them (the merge tests Python
truthiness, not presence), and `applyUpdate` can never clear a stored url:
if the merged `video_url` (resp. `thumbnail_url`) is `none`, it was already
`none` before the update. -/
theorem empty_url_update_is_noop (store : Store) (video_id : String)
    (st : VideoStatus) (tok secret : String) :
    update_video_status_service store video_id ⟨st, some "", some ""⟩ tok secret =
      update_video_status_service store video_id ⟨st, none, none⟩ tok secret ∧
    (∀ v : Video, ∀ u : VideoUpdateStatus,
      ((applyUpdate v u).video_url = none → v.video_url = none) ∧
      ((applyUpdate v u).thumbnail_url = none → v.thumbnail_url = none)) := by
  constructor
  · have hav : ∀ v : Video, applyUpdate v ⟨st, some "", some ""⟩ =
        applyUpdate v ⟨st, none, none⟩ := by
      intro v
      simp [applyUpdate_def, pyTruthy_none, pyTruthy_some_empty]
    by_cases h1 : tok ≠ secret
    · simp [update_video_status_service, h1]
    · push_neg at h1
      by_cases h2 : pyIsDigit video_id
      · cases hfind : store.videos.find? (fun w => w.id == pyInt video_id) with
        | none => simp [update_video_status_service, h1, h2, hfind]
        | some v => simp [update_video_status_service, h1, h2, hfind, hav]
      · simp [update_video_status_service, h1, h2]
  · intro v u
    constructor
    · intro h
      by_cases h1 : pyTruthy u.video_url
      · rw [applyUpdate_video_url_of_truthy v u h1] at h
        exact absurd h (pyTruthy_ne_none h1)
      · rw [applyUpdate_video_url_of_not_truthy v u (by simpa using h1)] at h
        exact h
    · intro h
      by_cases h1 : pyTruthy u.thumbnail_url
      · rw [applyUpdate_thumbnail_of_truthy v u h1] at h
        exact absurd h (pyTruthy_ne_none h1)
      · rw [applyUpdate_thumbnail_of_not_truthy v u (by simpa using h1)] at h
        exact h

/-- C10 witness: an empty-string update on job `"1"` equals the omitted-field
update, and a cleared-after-update url can only come from an already absent
one (discharged on a job whose url is absent). -/
theorem empty_url_update_is_noop_witness :
    update_video_status_service exStoreCompleted "1"
      ⟨.completed, some "", some ""⟩ "s" "s" =
      update_video_status_service exStoreCompleted "1"
        ⟨.completed, none, none⟩ "s" "s" ∧
    exVideoQueued.video_url = none :=
  ⟨(empty_url_update_is_noop exStoreCompleted "1" .completed "s" "s").1,
   ((empty_url_update_is_noop exStoreCompleted "1" .completed "s" "s").2
      exVideoQueued ⟨.completed, none, none⟩).1 (by decide)⟩

/-- C6: once an authorized `Queued -> Completed` update with `resultUrl=X`
has produced response `r` and store `s1`, repeating the very same call on
`s1` returns the very same `(r, s1)`: the repeat is an error-free no-op and
storage is not corrupted. -/
theorem update_completed_idempotent (store : Store) (video_id : String)
    (X : String) (tok : String) (v : Video) (r : VideoResponse) (s1 : Store)
    (hv : store.videos.find? (fun w => w.id == pyInt video_id) = some v)
    (hq : v.status = .queued)
    (h1 : update_video_status_service store video_id ⟨.completed, some X, none⟩
        tok tok = (.ok r, s1)) :
    update_video_status_service s1 video_id ⟨.completed, some X, none⟩ tok tok =
      (.ok r, s1) := by
  obtain ⟨-, hd, v0, hf0, hs1, hr⟩ :=
    update_ok_inv store video_id ⟨.completed, some X, none⟩ tok tok r s1 h1
  rw [hv] at hf0
  injection hf0 with hf0
  subst hf0
  subst hs1
  subst hr
  have hpv := List.find?_some hv
  have hpa : ((applyUpdate v ⟨.completed, some X, none⟩).id == pyInt video_id)
      = true := by
    simpa [applyUpdate_idf] using hpv
  have hfind1 : (replaceFirst (fun w => w.id == pyInt video_id)
        (applyUpdate v ⟨.completed, some X, none⟩) store.videos).find?
        (fun w => w.id == pyInt video_id) =
      some (applyUpdate v ⟨.completed, some X, none⟩) :=
    find?_replaceFirst _ _ _ v hv hpa
  simp [update_video_status_service, hd, hfind1, applyUpdate_idem]
  exact replaceFirst_idem (fun w => w.id == pyInt video_id)
    (applyUpdate v ⟨.completed, some X, none⟩) store.videos hpa

/-- C6 witness: on the queued job `"1"`, the completed-with-url update maps
`exStoreQueued` to `exStoreCompleted`; re-running it on `exStoreCompleted`
returns the identical response and leaves the store equal to
`exStoreCompleted`. -/
theorem update_completed_idempotent_witness :
    update_video_status_service exStoreCompleted "1"
      ⟨.completed, some "http://x/v.mp4", none⟩ "s" "s" =
      (.ok (videoToResponse exVideoCompleted "alice"), exStoreCompleted) :=
  update_completed_idempotent exStoreQueued "1" "http://x/v.mp4" "s"
    exVideoQueued (videoToResponse exVideoCompleted "alice") exStoreCompleted
    (by decide) (by decide) (by rfl)

/-- C7: a successful worker update only rewrites `status` and the provided
optional url fields of the targeted row: the users table and the id counter
are untouched, and row-by-row the job's `id`, `user_id`, payload fields and
`created_at` are preserved, while an absent (`None`) `video_url` /
`thumbnail_url` leaves the stored value as it was. -/
theorem update_frame (store : Store) (video_id : String) (u : VideoUpdateStatus)
    (tok secret : String) (r : VideoResponse) (s' : Store)
    (h : update_video_status_service store video_id u tok secret = (.ok r, s')) :
    s'.users = store.users ∧ s'.nextId = store.nextId ∧
    List.Forall₂ (fun w w' =>
      w'.id = w.id ∧ w'.user_id = w.user_id ∧ w'.text = w.text ∧
      w'.voice = w.voice ∧ w'.subtitle_style_id = w.subtitle_style_id ∧
      w'.subtitle_position = w.subtitle_position ∧
      w'.created_at = w.created_at ∧
      (u.video_url = none → w'.video_url = w.video_url) ∧
      (u.thumbnail_url = none → w'.thumbnail_url = w.thumbnail_url))
      store.videos s'.videos := by
  obtain ⟨-, -, v, hf, hs, -⟩ := update_ok_inv store video_id u tok secret r s' h
  subst hs
  refine ⟨rfl, rfl, ?_⟩
  refine forall2_replaceFirst _ _ _ (fun x => ?_) _ v hf ?_
  · exact ⟨rfl, rfl, rfl, rfl, rfl, rfl, rfl, fun _ => rfl, fun _ => rfl⟩
  · refine ⟨applyUpdate_idf v u, applyUpdate_user_id v u,
      by simp [applyUpdate_def], by simp [applyUpdate_def],
      by simp [applyUpdate_def], by simp [applyUpdate_def],
      by simp [applyUpdate_def],
      fun h0 => applyUpdate_video_url_of_not_truthy v u (by rw [h0]; rfl),
      fun h0 => applyUpdate_thumbnail_of_not_truthy v u (by rw [h0]; rfl)⟩

/-- C7 witness: the authorized `failed` update with no urls maps
`exStoreCompleted` to `exStoreFailed`, leaving the users table, id counter,
and every non-status field of the job — including its stored url —
unchanged. -/
theorem update_frame_witness :
    exStoreFailed.users = exStoreCompleted.users ∧
    exStoreFailed.nextId = exStoreCompleted.nextId ∧
    List.Forall₂ (fun w w' =>
      w'.id = w.id ∧ w'.user_id = w.user_id ∧ w'.text = w.text ∧
      w'.voice = w.voice ∧ w'.subtitle_style_id = w.subtitle_style_id ∧
      w'.subtitle_position = w.subtitle_position ∧
      w'.created_at = w.created_at ∧
      ((none : Option String) = none → w'.video_url = w.video_url) ∧
      ((none : Option String) = none → w'.thumbnail_url = w.thumbnail_url))
      exStoreCompleted.videos exStoreFailed.videos :=
  update_frame exStoreCompleted "1" ⟨.failed, none, none⟩ "s" "s"
    (videoToResponse exVideoFailed "alice") exStoreFailed (by rfl)

lemma mem_insertByCreatedDesc {x v : Video} {l : List Video} :
    x ∈ insertByCreatedDesc v l ↔ x = v ∨ x ∈ l := by
  induction l with
  | nil => simp [insertByCreatedDesc]
  | cons y ys ih =>
    simp only [insertByCreatedDesc]
    split
    · simp [List.mem_cons]
    · simp only [List.mem_cons, ih]
      tauto

lemma mem_sortByCreatedDesc {x : Video} {l : List Video} :
    x ∈ sortByCreatedDesc l ↔ x ∈ l := by
  induction l with
  | nil => simp [sortByCreatedDesc]
  | cons y ys ih =>
    simp [sortByCreatedDesc, mem_insertByCreatedDesc, ih]

/-- C8: the gallery takes no requester at all and filters on status only:
every response it returns has `status = completed`; conversely every
completed job joined with its author — whoever that owner is — appears in
the pre-pagination row list, and every row of the (sorted, newest-first)
pagination window `offset(skip).limit(limit)` is returned to any viewer. -/
theorem gallery_completed_and_public (store : Store) (skip limit : Nat) :
    (∀ r ∈ get_video_gallery_service store skip limit,
      r.status = VideoStatus.completed) ∧
    (∀ v ∈ store.videos, v.status = VideoStatus.completed →
      ∀ usr, store.users.find? (fun w => w.id == v.user_id) = some usr →
        (v, usr) ∈ joinUsers store.users
          (sortByCreatedDesc
            (store.videos.filter (fun w => w.status == VideoStatus.completed)))) ∧
    (∀ p ∈ (((joinUsers store.users
        (sortByCreatedDesc
          (store.videos.filter (fun w => w.status == VideoStatus.completed)))).drop
            skip).take limit),
      videoToResponse p.1 p.2.username ∈
        get_video_gallery_service store skip limit) := by
  refine ⟨?_, ?_, ?_⟩
  · intro r hr
    simp only [get_video_gallery_service] at hr
    obtain ⟨p, hp, hrp⟩ := List.mem_map.mp hr
    have hp1 := List.mem_of_mem_drop (List.mem_of_mem_take hp)
    obtain ⟨v, hvmem, hmap⟩ := List.mem_filterMap.mp hp1
    obtain ⟨usr, hfind, hvu⟩ := Option.map_eq_some'.mp hmap
    have hvf := mem_sortByCreatedDesc.mp hvmem
    have hc := (List.mem_filter.mp hvf).2
    rw [← hrp, ← hvu]
    simpa [videoToResponse] using hc
  · intro v hv hc usr hfind
    apply List.mem_filterMap.mpr
    refine ⟨v, mem_sortByCreatedDesc.mpr (List.mem_filter.mpr ⟨hv, by simp [hc]⟩), ?_⟩
    rw [hfind]
    rfl
  · intro p hp
    simp only [get_video_gallery_service]
    exact List.mem_map.mpr ⟨p, hp, rfl⟩

/-- C8 witness: the completed job of `exUser1` shows up in the gallery (for
which no requester exists to check), and that gallery entry is `completed`. -/
theorem gallery_completed_and_public_witness :
    videoToResponse exVideoCompleted exUser1.username ∈
      get_video_gallery_service exStoreCompleted 0 10 ∧
    (videoToResponse exVideoCompleted exUser1.username).status =
      VideoStatus.completed :=
  ⟨(gallery_completed_and_public exStoreCompleted 0 10).2.2
      (exVideoCompleted, exUser1) (by decide),
   (gallery_completed_and_public exStoreCompleted 0 10).1
      (videoToResponse exVideoCompleted exUser1.username)
      ((gallery_completed_and_public exStoreCompleted 0 10).2.2
        (exVideoCompleted, exUser1) (by decide))⟩

end Bullshido
